import Mathlib

/-!
Shallow embedding of `src/pages/PatientLoginPage.tsx` (RohanM78/aasha-mental-oasis).

The component keeps seven pieces of React state (`email`, `password`,
`confirmPassword`, `loading`, `isRegistration`, `patientExists`,
`hasMarkedRegistration`).  The three handlers (`checkPatientStatus`,
`handleRegistration`, `handleLogin`) are embedded as pure functions from the
form state and the responses of the external services to the new form state
together with the list of observable effects they produce (toasts, console
logs, auth-service calls, localStorage writes, navigation).  The
auth-state-change listener plus the one-shot latch is embedded as a small
event system (`step` / `run`) counting invocations of the
`mark_patient_registered` RPC.
-/

/-- React state of `PatientLoginPage` (the seven `useState` hooks). -/
structure FormState where
  email : String
  password : String
  confirmPassword : String
  loading : Bool
  isRegistration : Bool
  patientExists : Bool
  hasMarkedRegistration : Bool
deriving DecidableEq

/-- One row of the `check_patient_email` RPC response.  The fields are
`Option Bool` because the code reads them as `!!result?.email_exists` /
`!!result?.is_registered`: a missing or null field coerces to `false`. -/
structure RpcRow where
  email_exists : Option Bool
  is_registered : Option Bool
deriving DecidableEq

/-- A row of the `patients` table as returned by `select('*')...maybeSingle()`.
Only `id`, `name`, `email`, `psychologist_id` are used by the flow;
`otherFields` stands for the remaining columns of the `*` selection. -/
structure Patient where
  id : String
  name : String
  email : String
  psychologist_id : String
  otherFields : List (String × String)
deriving DecidableEq

/-- The Local Session Record written to `localStorage` under key
`patientSession`: exactly the four fields serialized at lines 168-173. -/
structure SessionRecord where
  id : String
  name : String
  email : String
  psychologist_id : String
deriving DecidableEq

/-- The `data` part of the `supabase.auth.signUp` response: whether `user`
and `session` are present (the code only tests them for presence). -/
structure SignUpData where
  user : Bool
  session : Bool
deriving DecidableEq

/-- Observable effects of the handlers: user-facing toasts, console logging,
calls to the auth service and RPCs, the patients-table query, the
localStorage write and navigation. -/
inductive Effect where
  | toast (title description : String)
  | consoleError
  | rpcCheckCall (email : String)
  | signUpCall (email password : String)
  | signInCall (email password : String)
  | markRegisteredCall
  | signOutCall
  | patientQuery (email : String)
  | setLocalStorage (key : String) (value : SessionRecord)
  | navigateTo (path : String)
deriving DecidableEq

/-- `checkPatientStatus` (lines 40-60).  `resp` is the outcome of the
`check_patient_email` RPC: an error, or a list of rows.  On success the code
takes the first row, coerces the two fields with `!!`, and sets
`patientExists := emailExists` and
`isRegistration := emailExists ? !isRegistered : false`.  On a thrown error
it logs to the console and resets both flags to `false`.  No toast is ever
emitted by this function. -/
def checkPatientStatus (s : FormState) (emailToCheck : String)
    (resp : Except Unit (List RpcRow)) : FormState × List Effect :=
  match resp with
  | .error _ =>
      ({ s with patientExists := false, isRegistration := false },
       [.rpcCheckCall emailToCheck, .consoleError])
  | .ok rows =>
      let result := rows.head?
      let emailExists := (result.bind RpcRow.email_exists).getD false
      let isRegistered := (result.bind RpcRow.is_registered).getD false
      ({ s with patientExists := emailExists,
                isRegistration := if emailExists then !isRegistered else false },
       [.rpcCheckCall emailToCheck])

/-- The `disabled` condition of the submit button (line 275):
`loading || !email || !password || (isRegistration && (!confirmPassword || !patientExists))`. -/
def submitDisabled (s : FormState) : Bool :=
  s.loading || s.email.isEmpty || s.password.isEmpty ||
    (s.isRegistration && (s.confirmPassword.isEmpty || !s.patientExists))

/-- `handleRegistration` (lines 71-131).  The handler sets `loading := true`
on entry and the `finally` clause sets it back to `false`, so the returned
state always has `loading := false`.  `signUpResp` is the outcome of
`supabase.auth.signUp` (`.error msg` for an `authError`), `markOk` whether
the direct `mark_patient_registered` RPC succeeds (its error is swallowed
and logged).  Validation failures and auth errors end in the `catch` block,
which only emits the destructive "Registration Failed" toast. -/
def handleRegistration (s : FormState) (signUpResp : Except String SignUpData)
    (markOk : Bool) : FormState × List Effect :=
  if s.password ≠ s.confirmPassword then
    ({ s with loading := false },
     [.toast "Registration Failed" "Passwords don\x27t match"])
  else if s.password.length < 6 then
    ({ s with loading := false },
     [.toast "Registration Failed" "Password must be at least 6 characters long"])
  else
    match signUpResp with
    | .error msg =>
        ({ s with loading := false },
         [.signUpCall s.email s.password, .toast "Registration Failed" msg])
    | .ok authData =>
        if authData.user = false then
          ({ s with loading := false },
           [.signUpCall s.email s.password,
            .toast "Registration Failed" "Registration failed"])
        else if authData.session then
          ({ s with isRegistration := false, password := "", confirmPassword := "",
                    loading := false },
           [.signUpCall s.email s.password, .markRegisteredCall] ++
             (if markOk then [] else [.consoleError]) ++
             [.toast "Registration successful!"
                "You\x27re all set. You can now sign in."])
        else
          ({ s with isRegistration := false, password := "", confirmPassword := "",
                    loading := false },
           [.signUpCall s.email s.password,
            .toast "Confirm your email"
              "We sent a confirmation link. After confirming, return here to sign in."])

/-- Projection of a patient row to the Local Session Record (lines 168-173). -/
def sessionOf (p : Patient) : SessionRecord :=
  { id := p.id, name := p.name, email := p.email, psychologist_id := p.psychologist_id }

/-- `handleLogin` (lines 133-190).  `signInResp` is the outcome of
`supabase.auth.signInWithPassword`: an auth error message, or `some` of the
verified user's email (`none` models a response with no `user`, which throws
"Authentication failed").  `patientResp` is the outcome of the
`patients` table query (`.error` for a `patientError`, `.ok none` for
`maybeSingle` finding no row).  Both the query-error and the no-row case take
the same branch (line 157: `if (patientError || !patient)`). -/
def handleLogin (s : FormState) (signInResp : Except String (Option String))
    (patientResp : Except Unit (Option Patient)) : FormState × List Effect :=
  match signInResp with
  | .error msg =>
      ({ s with loading := false },
       [.signInCall s.email s.password, .toast "Login Failed" msg])
  | .ok none =>
      ({ s with loading := false },
       [.signInCall s.email s.password, .toast "Login Failed" "Authentication failed"])
  | .ok (some userEmail) =>
      match patientResp with
      | .error _ | .ok none =>
          ({ s with loading := false },
           [.signInCall s.email s.password, .patientQuery userEmail,
            .toast "Access denied" "You are not registered as a patient in this system.",
            .signOutCall])
      | .ok (some patient) =>
          ({ s with loading := false },
           [.signInCall s.email s.password, .patientQuery userEmail,
            .setLocalStorage "patientSession" (sessionOf patient),
            .toast "Welcome back!" ("Hello " ++ patient.name ++ ", you\x27re now logged in."),
            .navigateTo "/patient-dashboard"])

/-- Number of `mark_patient_registered` invocations in an effect list. -/
def countMark : List Effect → Nat
  | [] => 0
  | Effect.markRegisteredCall :: effs => countMark effs + 1
  | _ :: effs => countMark effs

/-- Component state together with the running total of
`mark_patient_registered` invocations. -/
structure AppState where
  form : FormState
  markCalls : Nat
deriving DecidableEq

/-- Events of the registration flow: a direct `handleRegistration` submission,
or a `SIGNED_IN` auth-state-change notification processed by the listener
(lines 22-38).  `rpcOk` says whether the reactive `mark_patient_registered`
RPC succeeds: `setHasMarkedRegistration(true)` at line 28 runs only after the
`await` of the RPC, so a failing reactive RPC is caught and logged (lines
29-31) and leaves the latch unset.  Each notification's check-call-and-set is
treated as one atomic step. -/
inductive Ev where
  | direct (signUpResp : Except String SignUpData) (markOk : Bool)
  | signedIn (rpcOk : Bool)

/-- One step of the event system.  On a SIGNED_IN notification the listener
checks `isRegistration && !hasMarkedRegistration` (line 24); when the check
passes it invokes the RPC, and sets the latch only if the RPC succeeded. -/
def step (a : AppState) : Ev → AppState
  | .direct su m =>
      let r := handleRegistration a.form su m
      { form := r.1, markCalls := a.markCalls + countMark r.2 }
  | .signedIn rpcOk =>
      if a.form.isRegistration && !a.form.hasMarkedRegistration then
        { form := if rpcOk then { a.form with hasMarkedRegistration := true } else a.form,
          markCalls := a.markCalls + 1 }
      else a

/-- Run a sequence of events. -/
def run (a : AppState) : List Ev → AppState
  | [] => a
  | e :: evs => run (step a e) evs

/-- Number of direct registration submissions in a trace. -/
def countDirect : List Ev → Nat
  | [] => 0
  | Ev.direct _ _ :: evs => countDirect evs + 1
  | Ev.signedIn _ :: evs => countDirect evs

/-- Number of SIGNED_IN notifications whose reactive RPC fails. -/
def countSignedInFail : List Ev → Nat
  | [] => 0
  | Ev.direct _ _ :: evs => countSignedInFail evs
  | Ev.signedIn true :: evs => countSignedInFail evs
  | Ev.signedIn false :: evs => countSignedInFail evs + 1

/-- Budget of the successful reactive path: `1` while the latch is unset,
`0` after. -/
def latchBudget (a : AppState) : Nat :=
  if a.form.hasMarkedRegistration then 0 else 1

/-- A concrete form state used in witnesses and counterexamples: the state
right after resolving an email, before any password is typed. -/
def s0 : FormState :=
  { email := "a@b.com", password := "", confirmPassword := "", loading := false,
    isRegistration := false, patientExists := false, hasMarkedRegistration := false }

/-- A concrete well-formed lookup row: email exists, not yet registered. -/
def rowTT : RpcRow := { email_exists := some true, is_registered := some false }

/-- Claim C1: for every result of the email-status lookup, the derived Form
Mode is Registration (`isRegistration = true`) if and only if the result has
`emailExists = true` and `isRegistered = false`; every other result — and
also a failed lookup — yields Form Mode Login (`isRegistration = false`). -/
theorem checkPatientStatus_mode_iff (s : FormState) (e : String)
    (rows : List RpcRow) (u : Unit) :
    ((checkPatientStatus s e (Except.ok rows)).1.isRegistration = true ↔
      ((rows.head?.bind RpcRow.email_exists).getD false = true ∧
       (rows.head?.bind RpcRow.is_registered).getD false = false)) ∧
    (checkPatientStatus s e (Except.error u)).1.isRegistration = false := by
  constructor
  · cases he : (rows.head?.bind RpcRow.email_exists).getD false <;>
      cases hr : (rows.head?.bind RpcRow.is_registered).getD false <;>
        simp [checkPatientStatus, he, hr]
  · rfl

/-- Witness for C1 at a concrete row `{email_exists: true, is_registered: false}`. -/
theorem checkPatientStatus_mode_iff_witness :
    (checkPatientStatus s0 "a@b.com" (Except.ok [rowTT])).1.isRegistration = true :=
  (checkPatientStatus_mode_iff s0 "a@b.com" [rowTT] ()).1.mpr (by decide)

/-- A string whose `isEmpty` test is `false` is not the empty string. -/
theorem isEmpty_eq_false_iff (s : String) : s.isEmpty = false ↔ s ≠ "" := by
  rw [← Bool.not_eq_true]
  exact not_congr (String.isEmpty_iff s)

/-- Claim C5: submission is disabled unless email and password are non-empty
and, in Registration mode, confirmPassword is non-empty and the email exists;
in particular, in Registration mode with `patientExists = false` the button
is disabled no matter what the fields hold. -/
theorem submitDisabled_contract (s : FormState) :
    (submitDisabled s = false →
      (s.email ≠ "" ∧ s.password ≠ "" ∧
        (s.isRegistration = true → (s.confirmPassword ≠ "" ∧ s.patientExists = true)))) ∧
    ((s.isRegistration = true ∧ s.patientExists = false) → submitDisabled s = true) := by
  constructor
  · intro h
    simp only [submitDisabled, Bool.or_eq_false_iff, Bool.and_eq_false_iff] at h
    obtain ⟨⟨⟨-, he⟩, hp⟩, hr⟩ := h
    refine ⟨(isEmpty_eq_false_iff _).mp he, (isEmpty_eq_false_iff _).mp hp, ?_⟩
    intro hreg
    rcases hr with hr | hr
    · rw [hreg] at hr
      exact Bool.noConfusion hr
    · obtain ⟨hc, hx⟩ := hr
      refine ⟨(isEmpty_eq_false_iff _).mp hc, ?_⟩
      simpa using hx
  · rintro ⟨h1, h2⟩
    simp [submitDisabled, h1, h2]

/-- Witness for C5: Registration mode, every field filled, but the email is
unknown (`patientExists = false`) — the submit button is disabled. -/
theorem submitDisabled_contract_witness :
    submitDisabled
      { email := "x@y.z", password := "secret1", confirmPassword := "secret1",
        loading := false, isRegistration := true, patientExists := false,
        hasMarkedRegistration := false } = true :=
  (submitDisabled_contract _).2 ⟨rfl, rfl⟩

/-- Claim C3: login with verified credentials but no matching patient record
forces sign-out, shows the access-denied toast, writes no Local Session
Record (no `setLocalStorage` at all, in particular not `patientSession`) and
performs no navigation; the state only has `loading` cleared. -/
theorem handleLogin_no_patient_denied (s : FormState) (userEmail : String) :
    (handleLogin s (Except.ok (some userEmail)) (Except.ok none)).1 =
      { s with loading := false } ∧
    Effect.signOutCall ∈ (handleLogin s (Except.ok (some userEmail)) (Except.ok none)).2 ∧
    Effect.toast "Access denied" "You are not registered as a patient in this system." ∈
      (handleLogin s (Except.ok (some userEmail)) (Except.ok none)).2 ∧
    (∀ k v, Effect.setLocalStorage k v ∉
      (handleLogin s (Except.ok (some userEmail)) (Except.ok none)).2) ∧
    (∀ p, Effect.navigateTo p ∉
      (handleLogin s (Except.ok (some userEmail)) (Except.ok none)).2) := by
  refine ⟨rfl, ?_, ?_, ?_, ?_⟩ <;> simp [handleLogin]

/-- Witness for C3 at a concrete state and email. -/
theorem handleLogin_no_patient_denied_witness :
    Effect.signOutCall ∈ (handleLogin s0 (Except.ok (some "a@b.com")) (Except.ok none)).2 :=
  (handleLogin_no_patient_denied s0 "a@b.com").2.1

/-- Claim C4: login with verified credentials and a matching patient record
writes the Local Session Record under key `patientSession` holding exactly
the record's `id`, `name`, `email` and `psychologist_id`, and navigates to
`/patient-dashboard` (full effect list, in source order). -/
theorem handleLogin_found_writes_session (s : FormState) (userEmail : String) (p : Patient) :
    handleLogin s (Except.ok (some userEmail)) (Except.ok (some p)) =
      ({ s with loading := false },
       [Effect.signInCall s.email s.password, Effect.patientQuery userEmail,
        Effect.setLocalStorage "patientSession"
          { id := p.id, name := p.name, email := p.email,
            psychologist_id := p.psychologist_id },
        Effect.toast "Welcome back!" ("Hello " ++ p.name ++ ", you\x27re now logged in."),
        Effect.navigateTo "/patient-dashboard"]) := rfl

/-- A concrete patient record used in witnesses. -/
def pat1 : Patient :=
  { id := "p1", name := "Pat", email := "pat@clinic.com", psychologist_id := "psy1",
    otherFields := [] }

/-- Witness for C4 at a concrete state and patient record. -/
theorem handleLogin_found_writes_session_witness :
    Effect.navigateTo "/patient-dashboard" ∈
      (handleLogin s0 (Except.ok (some "pat@clinic.com")) (Except.ok (some pat1))).2 := by
  rw [handleLogin_found_writes_session s0 "pat@clinic.com" pat1]
  simp

/-- Claim C9: when the patient-record query itself errors, `handleLogin`
behaves exactly as when the query succeeds with no row (access denied,
sign-out, nothing written, no navigation), and no "Login Failed" toast is
shown — the store error is not surfaced as a login failure. -/
theorem handleLogin_store_error_as_absent (s : FormState) (userEmail : String) (u : Unit) :
    handleLogin s (Except.ok (some userEmail)) (Except.error u) =
      handleLogin s (Except.ok (some userEmail)) (Except.ok none) ∧
    (∀ d, Effect.toast "Login Failed" d ∉
      (handleLogin s (Except.ok (some userEmail)) (Except.error u)).2) := by
  refine ⟨rfl, ?_⟩
  simp [handleLogin]

/-- Witness for C9 at a concrete state and email. -/
theorem handleLogin_store_error_as_absent_witness :
    handleLogin s0 (Except.ok (some "a@b.com")) (Except.error ()) =
      handleLogin s0 (Except.ok (some "a@b.com")) (Except.ok none) :=
  (handleLogin_store_error_as_absent s0 "a@b.com" ()).1

/-- A concrete Registration-mode state with mismatching passwords. -/
def sMismatch : FormState :=
  { email := "new@clinic.com", password := "secret1", confirmPassword := "secret2",
    loading := false, isRegistration := true, patientExists := true,
    hasMarkedRegistration := false }

/-- A concrete Registration-mode state with valid matching passwords. -/
def sReg : FormState :=
  { email := "new@clinic.com", password := "secret1", confirmPassword := "secret1",
    loading := false, isRegistration := true, patientExists := true,
    hasMarkedRegistration := false }

/-- Claim C6: a registration submission with mismatching passwords or a
password shorter than 6 characters reports a "Registration Failed"
validation toast and never calls `supabase.auth.signUp`. -/
theorem handleRegistration_validation_no_signUp (s : FormState)
    (su : Except String SignUpData) (m : Bool)
    (h : s.password ≠ s.confirmPassword ∨ s.password.length < 6) :
    (∀ e p, Effect.signUpCall e p ∉ (handleRegistration s su m).2) ∧
    (∃ d, Effect.toast "Registration Failed" d ∈ (handleRegistration s su m).2) := by
  unfold handleRegistration
  by_cases hpc : s.password = s.confirmPassword
  · have hlen : s.password.length < 6 := h.resolve_left (not_not_intro hpc)
    rw [if_neg (not_not_intro hpc), if_pos hlen]
    exact ⟨fun e p => by simp,
      ⟨"Password must be at least 6 characters long", by simp⟩⟩
  · rw [if_pos hpc]
    exact ⟨fun e p => by simp, ⟨"Passwords don\x27t match", by simp⟩⟩

/-- Witness for C6 at a concrete state with mismatching passwords. -/
theorem handleRegistration_validation_no_signUp_witness :
    Effect.signUpCall "new@clinic.com" "secret1" ∉
      (handleRegistration sMismatch (Except.error "x") true).2 :=
  (handleRegistration_validation_no_signUp sMismatch (Except.error "x") true
    (Or.inl (by decide))).1 "new@clinic.com" "secret1"

/-- Claim C8: a registration submission that passes validation and gets a
user back — with an immediate session (`sess = true`) or without one
(`sess = false`) — resets Form Mode to Login and clears both password
fields. -/
theorem handleRegistration_success_resets (s : FormState) (sess m : Bool)
    (h1 : s.password = s.confirmPassword) (h2 : 6 ≤ s.password.length) :
    (handleRegistration s (Except.ok ⟨true, sess⟩) m).1.isRegistration = false ∧
    (handleRegistration s (Except.ok ⟨true, sess⟩) m).1.password = "" ∧
    (handleRegistration s (Except.ok ⟨true, sess⟩) m).1.confirmPassword = "" := by
  unfold handleRegistration
  rw [if_neg (not_not_intro h1), if_neg (Nat.not_lt.mpr h2)]
  cases sess <;> exact ⟨rfl, rfl, rfl⟩

/-- Witness for C8 at a concrete state with an immediate session. -/
theorem handleRegistration_success_resets_witness :
    (handleRegistration sReg (Except.ok ⟨true, true⟩) true).1.isRegistration = false :=
  (handleRegistration_success_resets sReg true true rfl (by decide)).1

/-- Claim C10: every failing registration submission (password mismatch,
short password, auth-service rejection, or a response with no user) leaves
the whole form state unchanged except `loading`, which ends up `false`:
the result is exactly `{ s with loading := false }`. -/
theorem handleRegistration_failure_frame (s : FormState)
    (su : Except String SignUpData) (m : Bool)
    (h : s.password ≠ s.confirmPassword ∨ s.password.length < 6 ∨
         (∃ msg, su = Except.error msg) ∨
         (∃ d, su = Except.ok d ∧ d.user = false)) :
    (handleRegistration s su m).1 = { s with loading := false } := by
  unfold handleRegistration
  by_cases hpc : s.password = s.confirmPassword
  · rw [if_neg (not_not_intro hpc)]
    by_cases hlen : s.password.length < 6
    · rw [if_pos hlen]
    · rw [if_neg hlen]
      have hsu : (∃ msg, su = Except.error msg) ∨ (∃ d, su = Except.ok d ∧ d.user = false) := by
        rcases h with h | h | h | h
        · exact absurd hpc h
        · exact absurd h hlen
        · exact Or.inl h
        · exact Or.inr h
      rcases hsu with ⟨msg, rfl⟩ | ⟨d, rfl, hd⟩
      · rfl
      · simp [hd]
  · rw [if_pos hpc]

/-- Witness for C10 at a concrete auth-service rejection. -/
theorem handleRegistration_failure_frame_witness :
    (handleRegistration sReg (Except.error "boom") true).1 = { sReg with loading := false } :=
  handleRegistration_failure_frame sReg (Except.error "boom") true
    (Or.inr (Or.inr (Or.inl ⟨"boom", rfl⟩)))

/-- A malformed lookup row: the first row of the response lacks both fields,
so the `!!` coercions in the code read them as `false`. -/
def rowMalformed : RpcRow := { email_exists := none, is_registered := none }

/-- Counterexample to C7 as stated: on the malformed non-error response
`[rowMalformed]` the Patient Status is indeed reset to
`{emailExists: false, isRegistered: false}`, yet nothing is logged —
`console.error` is only reached from the catch block, which a malformed
response that does not throw never enters.  So "the failure is logged" is
false for this covered failure. -/
theorem checkPatientStatus_malformed_not_logged :
    (checkPatientStatus s0 "a@b.com" (Except.ok [rowMalformed])).1.patientExists = false ∧
    (checkPatientStatus s0 "a@b.com" (Except.ok [rowMalformed])).1.isRegistration = false ∧
    Effect.consoleError ∉ (checkPatientStatus s0 "a@b.com" (Except.ok [rowMalformed])).2 := by
  refine ⟨rfl, rfl, ?_⟩
  simp [checkPatientStatus, rowMalformed]

/-- Claim C7 (amended): a failing lookup never surfaces a distinct
user-facing message and resets Patient Status fail-closed; a lookup *error*
is additionally logged to the console, while a malformed non-error response
(first row absent or lacking `email_exists`) resets the status the same way
but is not logged. -/
theorem checkPatientStatus_fail_closed (s : FormState) (e : String) (u : Unit)
    (rows : List RpcRow) :
    ((checkPatientStatus s e (Except.error u)).1.patientExists = false ∧
     (checkPatientStatus s e (Except.error u)).1.isRegistration = false ∧
     Effect.consoleError ∈ (checkPatientStatus s e (Except.error u)).2 ∧
     (∀ t d, Effect.toast t d ∉ (checkPatientStatus s e (Except.error u)).2)) ∧
    (rows.head?.bind RpcRow.email_exists = none →
      ((checkPatientStatus s e (Except.ok rows)).1.patientExists = false ∧
       (checkPatientStatus s e (Except.ok rows)).1.isRegistration = false ∧
       Effect.consoleError ∉ (checkPatientStatus s e (Except.ok rows)).2 ∧
       (∀ t d, Effect.toast t d ∉ (checkPatientStatus s e (Except.ok rows)).2))) := by
  constructor
  · refine ⟨rfl, rfl, ?_, ?_⟩
    · simp [checkPatientStatus]
    · intro t d
      simp [checkPatientStatus]
  · intro hnone
    refine ⟨?_, ?_, ?_, ?_⟩
    · simp [checkPatientStatus, hnone]
    · simp [checkPatientStatus, hnone]
    · simp [checkPatientStatus]
    · intro t d
      simp [checkPatientStatus]

/-- Witness for C7 (amended) at a lookup error and at an empty response. -/
theorem checkPatientStatus_fail_closed_witness :
    (checkPatientStatus s0 "a@b.com" (Except.ok ([] : List RpcRow))).1.patientExists = false :=
  ((checkPatientStatus_fail_closed s0 "a@b.com" () []).2 rfl).1

/-- `handleRegistration` emits at most one `mark_patient_registered` call
(exactly one when the response carries a user and a session, none
otherwise). -/
theorem countMark_handleRegistration (s : FormState) (su : Except String SignUpData)
    (m : Bool) : countMark (handleRegistration s su m).2 ≤ 1 := by
  unfold handleRegistration
  by_cases h1 : s.password ≠ s.confirmPassword
  · rw [if_pos h1]
    simp [countMark]
  · rw [if_neg h1]
    by_cases h2 : s.password.length < 6
    · rw [if_pos h2]
      simp [countMark]
    · rw [if_neg h2]
      cases su with
      | error msg => simp [countMark]
      | ok d =>
        by_cases hu : d.user = false
        · simp [hu, countMark]
        · by_cases hs : d.session = true
          · cases m <;> simp [hu, hs, countMark]
          · simp [hu, hs, countMark]

/-- `handleRegistration` never touches the `hasMarkedRegistration` latch. -/
theorem latch_handleRegistration (s : FormState) (su : Except String SignUpData)
    (m : Bool) :
    (handleRegistration s su m).1.hasMarkedRegistration = s.hasMarkedRegistration := by
  unfold handleRegistration
  by_cases h1 : s.password ≠ s.confirmPassword
  · rw [if_pos h1]
  · rw [if_neg h1]
    by_cases h2 : s.password.length < 6
    · rw [if_pos h2]
    · rw [if_neg h2]
      cases su with
      | error msg => rfl
      | ok d =>
        by_cases hu : d.user = false
        · simp [hu]
        · by_cases hs : d.session = true
          · simp [hu, hs]
          · simp [hu, hs]

/-- Counterexample to C2 as stated: starting in Registration mode with the
latch unset, process a SIGNED_IN notification whose reactive RPC succeeds
(reactive call, latch set) and then complete the direct registration path
with an immediate session.  The direct call at line 102 neither checks nor
sets `hasMarkedRegistration`, so `mark_patient_registered` is invoked twice,
not exactly once. -/
theorem markRegistered_twice_trace :
    (run { form := sReg, markCalls := 0 }
       [Ev.signedIn true, Ev.direct (Except.ok ⟨true, true⟩) true]).markCalls = 2 := by
  rfl

/-- Claim C2 (amended): the one-shot latch guards only the reactive listener
path, not the direct call in `handleRegistration`, and it is set only when
the reactive RPC succeeds — a SIGNED_IN notification whose reactive RPC
fails leaves the latch unset, so a later notification fires the RPC again.
Over any trace of direct submissions and SIGNED_IN notifications (each
notification's check-call-and-set taken as one atomic step), the number of
`mark_patient_registered` invocations is bounded by one per direct
submission, plus one per failed reactive attempt, plus at most one
successful reactive call — none of the latter once the latch is set.  So a
registration with an immediate session plus a notification whose reactive
RPC succeeds reaches two calls (see the counterexample), not one. -/
theorem markRegistered_call_bound (a : AppState) (evs : List Ev) :
    (run a evs).markCalls ≤
      a.markCalls + countDirect evs + countSignedInFail evs + latchBudget a := by
  induction evs generalizing a with
  | nil =>
    simp only [run, countDirect, countSignedInFail]
    omega
  | cons e evs ih =>
    cases e with
    | direct su m =>
      have hstep := ih (step a (Ev.direct su m))
      have hcm : countMark (handleRegistration a.form su m).2 ≤ 1 :=
        countMark_handleRegistration a.form su m
      have hlatch : latchBudget (step a (Ev.direct su m)) = latchBudget a := by
        simp [latchBudget, step, latch_handleRegistration]
      have hmc : (step a (Ev.direct su m)).markCalls ≤ a.markCalls + 1 := by
        simp only [step]
        omega
      calc (run a (Ev.direct su m :: evs)).markCalls
          = (run (step a (Ev.direct su m)) evs).markCalls := rfl
        _ ≤ (step a (Ev.direct su m)).markCalls + countDirect evs
              + countSignedInFail evs + latchBudget (step a (Ev.direct su m)) := hstep
        _ ≤ a.markCalls + 1 + countDirect evs + countSignedInFail evs + latchBudget a := by
              rw [hlatch]
              omega
        _ = a.markCalls + countDirect (Ev.direct su m :: evs)
              + countSignedInFail (Ev.direct su m :: evs) + latchBudget a := by
              simp only [countDirect, countSignedInFail]
              omega
    | signedIn rpcOk =>
      by_cases hcond : (a.form.isRegistration && !a.form.hasMarkedRegistration) = true
      · have hstep := ih (step a (Ev.signedIn rpcOk))
        have h1 : (step a (Ev.signedIn rpcOk)).markCalls = a.markCalls + 1 := by
          simp [step, hcond]
        have h3 : latchBudget a = 1 := by
          have hlf := hcond
          simp only [Bool.and_eq_true, Bool.not_eq_true'] at hlf
          simp [latchBudget, hlf.2]
        have h2 : countSignedInFail evs + latchBudget (step a (Ev.signedIn rpcOk))
            ≤ countSignedInFail (Ev.signedIn rpcOk :: evs) := by
          cases rpcOk with
          | true =>
            have hz : latchBudget (step a (Ev.signedIn true)) = 0 := by
              simp [latchBudget, step, hcond]
            rw [hz]
            simp only [countSignedInFail]
            omega
          | false =>
            have hlf := hcond
            simp only [Bool.and_eq_true, Bool.not_eq_true'] at hlf
            have ho : latchBudget (step a (Ev.signedIn false)) = 1 := by
              simp [latchBudget, step, hcond, hlf.1, hlf.2]
            rw [ho]
            simp only [countSignedInFail]
            omega
        calc (run a (Ev.signedIn rpcOk :: evs)).markCalls
            = (run (step a (Ev.signedIn rpcOk)) evs).markCalls := rfl
          _ ≤ (step a (Ev.signedIn rpcOk)).markCalls + countDirect evs
                + countSignedInFail evs + latchBudget (step a (Ev.signedIn rpcOk)) := hstep
          _ ≤ a.markCalls + countDirect (Ev.signedIn rpcOk :: evs)
                + countSignedInFail (Ev.signedIn rpcOk :: evs) + latchBudget a := by
                rw [h1, h3]
                simp only [countDirect]
                omega
      · have hstep := ih a
        have hs : step a (Ev.signedIn rpcOk) = a := by
          simp only [step]
          rw [if_neg hcond]
        have hcf : countSignedInFail evs ≤ countSignedInFail (Ev.signedIn rpcOk :: evs) := by
          cases rpcOk <;> simp only [countSignedInFail] <;> omega
        calc (run a (Ev.signedIn rpcOk :: evs)).markCalls
            = (run (step a (Ev.signedIn rpcOk)) evs).markCalls := rfl
          _ = (run a evs).markCalls := by rw [hs]
          _ ≤ a.markCalls + countDirect evs + countSignedInFail evs + latchBudget a := hstep
          _ ≤ a.markCalls + countDirect (Ev.signedIn rpcOk :: evs)
                + countSignedInFail (Ev.signedIn rpcOk :: evs) + latchBudget a := by
                simp only [countDirect]
                omega
